import Mathlib

/-!
Verification development for the CaptchaSolver repository.

The program drives a browser session against a government portal, resolves
CAPTCHAs (automatically via 2Captcha or through a manual fallback) and
extracts an insurance rate ("alícuota") per taxpayer identifier (CUIT).

This file contains a shallow embedding of the pure decision logic of the
core functions of `services/playwright_service.py`,
`services/twocaptcha_service.py` and `controllers/alicuota_controller.py`,
and theorems settling the specification claims against it.

Python strings are modelled as `List Char`; the Python string helpers used
by the code (`in`, `split`, `strip`, `isdigit`, slicing) are given faithful
ASCII models below.  Browser side effects are modelled by environment
parameters describing what the outside world (pages, frames, the solving
service) answers at each interaction point.
-/

set_option autoImplicit false

namespace CaptchaSolver

/-- Python strings are modelled as lists of characters. -/
abbrev Str := List Char

/-! ## Python string primitives -/

/-- Python substring containment `pat in s`. -/
def pyContains : Str → Str → Bool
  | [], pat => pat.isEmpty
  | c :: rest, pat => pat.isPrefixOf (c :: rest) || pyContains rest pat

/-- The remainder of `s` after the first occurrence of `pat`
(`none` when `pat` does not occur in `s`). -/
def afterFirstOcc (pat : Str) : Str → Option Str
  | [] => if pat.isEmpty then some [] else none
  | c :: rest =>
    if pat.isPrefixOf (c :: rest) then some ((c :: rest).drop pat.length)
    else afterFirstOcc pat rest

/-- The prefix of `s` strictly before the first occurrence of `pat`
(all of `s` when `pat` does not occur). -/
def upToFirstOcc (pat : Str) : Str → Str
  | [] => []
  | c :: rest =>
    if pat.isPrefixOf (c :: rest) then [] else c :: upToFirstOcc pat rest

/-- Python `s.split(sep)` for a single-character separator
(used for `contenido.split('\n')`). -/
def splitChar (sep : Char) : Str → List Str
  | [] => [[]]
  | c :: rest =>
    match splitChar sep rest with
    | [] => [[c]]
    | h :: t => if c = sep then [] :: h :: t else (c :: h) :: t

/-- ASCII model of the whitespace stripped by Python `str.strip()`. -/
def isPySpace (c : Char) : Bool :=
  c = ' ' || c = '\t' || c = '\n' || c = '\r' || c = '\x0b' || c = '\x0c'

/-- Drop leading Python whitespace. -/
def dropLeadingSpace : Str → Str
  | [] => []
  | c :: rest => if isPySpace c then dropLeadingSpace rest else c :: rest

/-- Python `s.strip()` (ASCII whitespace). -/
def pyStrip (s : Str) : Str :=
  (dropLeadingSpace ((dropLeadingSpace s).reverse)).reverse

/-- Python `s.isdigit()` restricted to ASCII digits. -/
def pyIsDigit (s : Str) : Bool :=
  !s.isEmpty && s.all Char.isDigit

/-- The captcha-token preview stored in the session state:
`token[:50] + "..."` (`playwright_service.py` lines 586, 903, 921, 1113). -/
def tokenPreview (t : Str) : Str :=
  t.take 50 ++ "...".data

/-! ## Data model: query results and the sequential batch loop
(`PlaywrightService._obtener_alicuotas_secuencial`, lines 727-804) -/

/-- One entry of the batch output: the dicts appended by
`_obtener_alicuotas_secuencial`, i.e. the `CuitResponse` shape of
`models/response_models.py`. -/
structure QueryResult where
  cuit : Str
  alicuota : Option Str
  nombre : Option Str
  error : Option Str
deriving DecidableEq, Repr

/-- Environment behaviour of one iteration of the per-CUIT loop body
(lines 737-791):
* `ok a n`: all steps succeed and `_extraer_alicuota` returns the dict
  `{"alicuota": a, "nombre": n}` (both values are always strings there);
* `captchaFail`: `captcha_resuelto` is still false after the one retry of
  `_gestionar_captcha`, so the loop records a fixed error and continues;
* `exn msg resetOk`: some step raises an exception whose `str` is `msg`;
  `resetOk` is the boolean returned by `_intentar_resetear_pagina`
  (false when the page reset finds the browser connection gone). -/
inductive ItemBehavior where
  | ok (alicuota nombre : Str)
  | captchaFail
  | exn (msg : Str) (resetOk : Bool)
deriving DecidableEq, Repr

/-- The per-CUIT loop of `_obtener_alicuotas_secuencial` over the batch
zipped with its environment behaviours.  On `exn` the error record for the
current CUIT is appended first; then, when `_intentar_resetear_pagina`
returns false, the loop `break`s: no further record is produced.
The outer `except` block (lines 793-802) would pad the output, but nothing
in the loop can raise past the per-item handler
(`_intentar_resetear_pagina` catches every exception and returns a
boolean), so that block is unreachable and is not part of the model. -/
def procesarLoteAux : List (Str × ItemBehavior) → List QueryResult
  | [] => []
  | (cuit, b) :: rest =>
    match b with
    | .ok a n => ⟨cuit, some a, some n, none⟩ :: procesarLoteAux rest
    | .captchaFail =>
        ⟨cuit, none, none, some "No se pudo resolver el captcha".data⟩ ::
          procesarLoteAux rest
    | .exn msg true =>
        ⟨cuit, none, none, some ("Error: ".data ++ msg)⟩ :: procesarLoteAux rest
    | .exn msg false =>
        [⟨cuit, none, none, some ("Error: ".data ++ msg)⟩]

/-- `PlaywrightService._obtener_alicuotas_secuencial`: process the CUITs in
input order, each with its environment behaviour. -/
def obtener_alicuotas_secuencial (cuits : List Str) (env : List ItemBehavior) :
    List QueryResult :=
  procesarLoteAux (cuits.zip env)

/-! ## CAPTCHA state and `_gestionar_captcha` (lines 897-931) -/

/-- The captcha-related fields of the process-wide `PlaywrightService`
instance (`__init__`, lines 97-99); `captcha_token` holds the preview
exposed by the `/captcha-status` endpoint of
`controllers/alicuota_controller.py`. -/
structure CaptchaState where
  captcha_token : Option Str
  captcha_resuelto : Bool
  captcha_resolviendo : Bool
deriving DecidableEq, Repr

/-- What the world does when `_gestionar_captcha` falls into its resolve
branch: either `_resolver_captcha` returns and the textarea afterwards
holds `tokenAfter`, or some step of the `try` block raises. -/
inductive ResolveOutcome where
  | ok (tokenAfter : Str)
  | exn
deriving DecidableEq, Repr

/-- `PlaywrightService._gestionar_captcha`.  `existing` is the string read
from the `g-recaptcha-response` textarea by `_obtener_token_captcha`
(that evaluate always yields a string, `''` when the textarea is absent).
Returns the new captcha state and whether a resolution was attempted.
The Python guard is `token_existente and len(token_existente) > 50`, i.e.
nonempty and longer than 50; the `finally` clause puts
`captcha_resolviendo` back to false on every resolve path. -/
def gestionar_captcha (st : CaptchaState) (existing : Str)
    (resolve : ResolveOutcome) : CaptchaState × Bool :=
  if !existing.isEmpty && existing.length > 50 then
    ({ st with captcha_token := some (tokenPreview existing),
               captcha_resuelto := true }, false)
  else
    match resolve with
    | .ok token =>
      if !token.isEmpty && token.length > 50 then
        ({ st with captcha_token := some (tokenPreview token),
                   captcha_resuelto := true, captcha_resolviendo := false }, true)
      else
        ({ st with captcha_resuelto := false, captcha_resolviendo := false }, true)
    | .exn =>
        ({ st with captcha_resuelto := false, captcha_resolviendo := false }, true)

/-- The captcha bookkeeping at the end of `_realizar_login`
(lines 584-596): after the startup resolve attempt the token is read back
and the state fields are set exactly as in `_gestionar_captcha`. -/
def startup_captcha_update (st : CaptchaState) (token : Str) : CaptchaState :=
  if !token.isEmpty && token.length > 50 then
    { st with captcha_token := some (tokenPreview token), captcha_resuelto := true }
  else
    { st with captcha_resuelto := false }

/-! ## The 2Captcha client (`twocaptcha_service.solve_recaptcha_v2`,
lines 24-71) -/

/-- A Python value held in the solver response: a string, or some
non-string value of which only the truthiness matters (calling `len` on it
raises, which the function's `except` turns into `None`). -/
inductive PyVal where
  | str (s : Str)
  | other (truthy : Bool)
deriving DecidableEq, Repr

/-- The shape of the object returned by `solver.recaptcha`: a dict (with
insertion-ordered entries and unique keys), a bare string, or some other
value of which only the truthiness matters. -/
inductive TCResponse where
  | dict (entries : List (Str × PyVal))
  | str (s : Str)
  | other (truthy : Bool)
deriving DecidableEq, Repr

/-- Python dict key lookup / `key in result` over the entry list. -/
def dictLookup : List (Str × PyVal) → Str → Option PyVal
  | [], _ => none
  | (k, v) :: rest, key => if k = key then some v else dictLookup rest key

/-- The fallback scan of `solve_recaptcha_v2`: the first value in
insertion order that is a string of length > 50. -/
def firstLongStrVal : List (Str × PyVal) → Option Str
  | [] => none
  | (_, .str v) :: rest => if v.length > 50 then some v else firstLongStrVal rest
  | (_, .other _) :: rest => firstLongStrVal rest

/-- Python truthiness of the solver response (`if result:`). -/
def responseTruthy : TCResponse → Bool
  | .dict es => !es.isEmpty
  | .str s => !s.isEmpty
  | .other b => b

/-- The candidate `token` picked by `solve_recaptcha_v2` (lines 39-59):
for a truthy dict, key `"code"`, else key `"token"`, else the first string
value longer than 50; for a truthy bare string, the string itself if
longer than 50; `None` otherwise. -/
def candidateToken (result : TCResponse) : Option PyVal :=
  if responseTruthy result then
    match result with
    | .dict es =>
      match dictLookup es "code".data with
      | some v => some v
      | none =>
        match dictLookup es "token".data with
        | some v => some v
        | none => (firstLongStrVal es).map PyVal.str
    | .str s => if s.length > 50 then some (.str s) else none
    | .other _ => none
  else none

/-- `TwoCaptchaService.solve_recaptcha_v2`: return the candidate token
only if `token and len(token) > 50`, else `None`.  A non-string truthy
candidate makes `len` raise, which the surrounding `except` turns into
`None`; a falsy non-string candidate fails the `if token` test — either
way the result is `none`, matching the catch-all branch. -/
def solve_recaptcha_v2 (result : TCResponse) : Option Str :=
  match candidateToken result with
  | some (.str t) => if !t.isEmpty && t.length > 50 then some t else none
  | _ => none

/-! ## Site-key extraction (`_extraer_site_key`, lines 1216-1250) -/

/-- The single-quote character, to keep character literals simple. -/
def squote : Char := Char.ofNat 39

/-- A character of the regex class `["\']`. -/
def isQuote (c : Char) : Bool :=
  c = '"' || c = squote

/-- `re.search` of `[?&] ++ lit ++ (capture)+` where the capture class
excludes the characters satisfying `stop`: scan positions left to right;
at a position starting with `?` or `&` followed by `lit`, take the greedy
run of non-`stop` characters and succeed if it is nonempty, otherwise keep
scanning from the next position. -/
def searchAmpParam (lit : Str) (stop : Char → Bool) : Str → Option Str
  | [] => none
  | c :: rest =>
    if (c = '?' || c = '&') && lit.isPrefixOf rest then
      match (rest.drop lit.length).takeWhile (fun d => !stop d) with
      | [] => searchAmpParam lit stop rest
      | d :: ds => some (d :: ds)
    else searchAmpParam lit stop rest

/-- `re.search` of `lit ++ ([^&]+)` (pattern `sitekey=([^&]+)`). -/
def searchLitParam (lit : Str) : Str → Option Str
  | [] => none
  | c :: rest =>
    if lit.isPrefixOf (c :: rest) then
      match ((c :: rest).drop lit.length).takeWhile (fun d => d ≠ '&') with
      | [] => searchLitParam lit rest
      | d :: ds => some (d :: ds)
    else searchLitParam lit rest

/-- Match `["\']([^"\']+)["\']` at the start of `tail`: an opening quote,
a nonempty greedy run of non-quote characters, and a closing quote (either
kind, as in the regex class). -/
def matchQuotedTail (tail : Str) : Option Str :=
  match tail with
  | [] => none
  | q :: rest =>
    if isQuote q then
      match rest.takeWhile (fun d => !isQuote d) with
      | [] => none
      | d :: ds =>
        match rest.drop (d :: ds).length with
        | [] => none
        | e :: _ => if isQuote e then some (d :: ds) else none
    else none

/-- `re.search` of `lit ++ ["\']([^"\']+)["\']` (the `data-sitekey=`/
`sitekey=`/`k=` attribute patterns of the HTML scan). -/
def searchQuotedAttr (lit : Str) : Str → Option Str
  | [] => none
  | c :: rest =>
    if lit.isPrefixOf (c :: rest) then
      match matchQuotedTail ((c :: rest).drop lit.length) with
      | some cap => some cap
      | none => searchQuotedAttr lit rest
    else searchQuotedAttr lit rest

/-- Method 1 of `_extraer_site_key`: the patterns `[?&]k=([^&]+)`,
`sitekey=([^&]+)`, `[?&]sitekey=([^&]+)` applied in order to the captcha
iframe `src`. -/
def siteKeyFromSrc (src : Str) : Option Str :=
  match searchAmpParam "k=".data (fun d => d = '&') src with
  | some m => some m
  | none =>
    match searchLitParam "sitekey=".data src with
    | some m => some m
    | none => searchAmpParam "sitekey=".data (fun d => d = '&') src

/-- Method 2 of `_extraer_site_key`: the patterns
`data-sitekey=["\']([^"\']+)["\']`, `sitekey=["\']([^"\']+)["\']`,
`k=["\']([^"\']+)["\']`, `[?&]k=([^&\s"\']+)` applied in order to
`page.content()`. -/
def siteKeyFromHtml (content : Str) : Option Str :=
  match searchQuotedAttr "data-sitekey=".data content with
  | some m => some m
  | none =>
    match searchQuotedAttr "sitekey=".data content with
    | some m => some m
    | none =>
      match searchQuotedAttr "k=".data content with
      | some m => some m
      | none =>
        searchAmpParam "k=".data (fun d => d = '&' || isPySpace d || isQuote d)
          content

/-- What `_extraer_site_key` can observe of the page: the `src` attribute
of the captcha iframe when `_encontrar_captcha_iframe` finds one and the
element carries a `src` (`none` otherwise — in every such case the code
falls through to the HTML scan), and the full page HTML. -/
structure PageModel where
  frameSrc : Option Str
  content : Str
deriving DecidableEq, Repr

/-- `PlaywrightService._extraer_site_key`: try the frame-source patterns
first, then the full-page HTML patterns. -/
def extraer_site_key (pm : PageModel) : Option Str :=
  match pm.frameSrc with
  | some src =>
    match siteKeyFromSrc src with
    | some k => some k
    | none => siteKeyFromHtml pm.content
  | none => siteKeyFromHtml pm.content

/-! ## Result extraction (`_extraer_alicuota`, lines 1258-1325, and
`_extraer_nombre_desde_contenido`, lines 1370-1388) -/

/-- The rate parsing of `_extraer_alicuota` (lines 1308-1310):
`texto.split("Variable:")[1].split("/")[0].strip()` guarded by
`texto_completo and "Variable:" in texto_completo`.  `split(sep)[1]` is
the segment after the first occurrence of `sep` up to its next
occurrence, and `split("/")[0]` then cuts at the first `/`. -/
def parseAlicuota (texto : Option Str) : Option Str :=
  match texto with
  | none => none
  | some t =>
    if !t.isEmpty && pyContains t "Variable:".data then
      match afterFirstOcc "Variable:".data t with
      | some tail =>
          some (pyStrip (upToFirstOcc "/".data (upToFirstOcc "Variable:".data tail)))
      | none => none
    else none

/-- First pass of `_extraer_nombre_desde_contenido` (lines 1375-1380):
the first stripped line that is nonempty, contains none of `"Variable:"`,
`"%"`, `"$"`, has length > 3 and is not purely numeric.  A line that
passes the outer filter but fails the inner length/digit test is skipped,
not returned. -/
def nombreLoop1 : List Str → Option Str
  | [] => none
  | l :: rest =>
    let linea := pyStrip l
    if !linea.isEmpty && !pyContains linea "Variable:".data
        && !pyContains linea "%".data && !pyContains linea "$".data then
      if linea.length > 3 && !pyIsDigit linea then some linea
      else nombreLoop1 rest
    else nombreLoop1 rest

/-- Second pass of `_extraer_nombre_desde_contenido` (lines 1382-1386):
the first stripped line of length > 5 not containing `"Variable"` (no
colon here) nor `"%"`; `"$"` and digits are allowed in this pass. -/
def nombreLoop2 : List Str → Option Str
  | [] => none
  | l :: rest =>
    let parte := pyStrip l
    if !parte.isEmpty && parte.length > 5 && !pyContains parte "Variable".data
        && !pyContains parte "%".data then
      some parte
    else nombreLoop2 rest

/-- `PlaywrightService._extraer_nombre_desde_contenido`: `None` for a
falsy (absent or empty) content, otherwise the first pass over the
`'\n'`-split lines, falling back to the second pass. -/
def extraer_nombre_desde_contenido (contenido : Option Str) : Option Str :=
  match contenido with
  | none => none
  | some c =>
    if c.isEmpty then none
    else
      match nombreLoop1 (splitChar '\n' c) with
      | some n => some n
      | none => nombreLoop2 (splitChar '\n' c)

/-- The specification's name rule, stated for comparison with the code
(claim C8): the first non-empty (stripped) line that is not the rate line
and is not purely numeric.  This definition follows the spec's words, not
the source. -/
def nombreSegunSpec (c : Str) : Option Str :=
  (splitChar '\n' c).findSome? fun l =>
    let linea := pyStrip l
    if !linea.isEmpty && !pyContains linea "Variable:".data && !pyIsDigit linea then
      some linea
    else none

/-- The success-path assembly of `_extraer_alicuota` (lines 1299-1317,
no timeout and frame present): the returned dict `{"alicuota", "nombre"}`,
with the Python falsy test supplying the sentinels
`"No se pudo extraer la alícuota"` and `"No disponible"`. -/
def extraer_alicuota_datos (contenido texto : Option Str) : Str × Str :=
  let alicuota :=
    match parseAlicuota texto with
    | some a => if a.isEmpty then "No se pudo extraer la alícuota".data else a
    | none => "No se pudo extraer la alícuota".data
  let nombre :=
    match extraer_nombre_desde_contenido contenido with
    | some n => if n.isEmpty then "No disponible".data else n
    | none => "No disponible".data
  (alicuota, nombre)

/-! ## Session close (`cerrar_sesion`, lines 688-712) -/

/-- The session fields of the process-wide `PlaywrightService` instance
(`__init__`, lines 90-99).  Handle fields are modelled by whether the
handle is present (`self.x` truthy). -/
structure SessionState where
  playwright : Bool
  browser : Bool
  context : Bool
  page : Bool
  login_page : Bool
  servicios_page : Bool
  session_ready : Bool
  captcha_resuelto : Bool
  captcha_token : Option Str
  captcha_resolviendo : Bool
deriving DecidableEq, Repr

/-- The five release calls of `cerrar_sesion`, in source order. -/
inductive CloseStep where
  | servicios_page | login_page | page | browser | playwright
deriving DecidableEq, Repr

/-- `PlaywrightService.cerrar_sesion`: the five guarded release calls and
the field resets all run inside one `try`; `fails step = true` means that
release call raises, which jumps to the `except` branch (which only logs),
leaving all later releases unperformed and every field unchanged.
`self.context` is never closed, only its field is cleared, and the captcha
fields are not touched on any path.  Returns the resulting state and the
list of releases actually performed; the operation itself never raises. -/
def cerrar_sesion (st : SessionState) (fails : CloseStep → Bool) :
    SessionState × List CloseStep :=
  if st.servicios_page && fails .servicios_page then (st, [])
  else
    let r1 : List CloseStep := if st.servicios_page then [.servicios_page] else []
    if st.login_page && fails .login_page then (st, r1)
    else
      let r2 := r1 ++ if st.login_page then [.login_page] else []
      if st.page && fails .page then (st, r2)
      else
        let r3 := r2 ++ if st.page then [.page] else []
        if st.browser && fails .browser then (st, r3)
        else
          let r4 := r3 ++ if st.browser then [.browser] else []
          if st.playwright && fails .playwright then (st, r4)
          else
            let r5 := r4 ++ if st.playwright then [.playwright] else []
            ({ st with servicios_page := false, login_page := false,
                       page := false, browser := false, context := false,
                       playwright := false, session_ready := false }, r5)

/-! ## Automated solve (`_resolver_captcha_con_servicio`,
lines 1087-1124) -/

/-- `PlaywrightService._resolver_captcha_con_servicio`: returns false
without touching the state when the service is absent, the site key is not
extractable, the solver yields no token, or the injection does not find
the response textarea; on success stores the token preview and sets
`captcha_resuelto`. -/
def resolver_captcha_con_servicio (st : CaptchaState) (hasService : Bool)
    (siteKey : Option Str) (resp : TCResponse) (textareaFound : Bool) :
    CaptchaState × Bool :=
  if !hasService then (st, false)
  else
    match siteKey with
    | none => (st, false)
    | some _ =>
      match solve_recaptcha_v2 resp with
      | none => (st, false)
      | some token =>
        if textareaFound then
          ({ st with captcha_token := some (tokenPreview token),
                     captcha_resuelto := true }, true)
        else (st, false)

/-! ## Shared helper lemmas -/

/-- A list of length greater than 50 is not empty. -/
theorem isEmpty_false_of_long {s : Str} (h : 50 < s.length) :
    s.isEmpty = false := by
  cases s with
  | nil => simp at h
  | cons c t => rfl

/-- A successful dict lookup implies the dict is truthy (nonempty). -/
theorem dictLookup_isEmpty_false {es : List (Str × PyVal)} {key : Str}
    {v : PyVal} (h : dictLookup es key = some v) : es.isEmpty = false := by
  cases es with
  | nil => simp [dictLookup] at h
  | cons p rest => rfl

/-- The fallback scan only ever yields strings longer than 50. -/
theorem firstLongStrVal_length : ∀ {es : List (Str × PyVal)} {t : Str},
    firstLongStrVal es = some t → 50 < t.length := by
  intro es
  induction es with
  | nil => intro t h; simp [firstLongStrVal] at h
  | cons p rest ih =>
    intro t h
    obtain ⟨k, v⟩ := p
    cases v with
    | str s =>
      simp only [firstLongStrVal] at h
      split at h
      · injection h with h2
        subst h2
        assumption
      · exact ih h
    | other b =>
      simp only [firstLongStrVal] at h
      exact ih h

/-- `solve_recaptcha_v2` never returns a token of length at most 50. -/
theorem solve_recaptcha_v2_length {result : TCResponse} {t : Str}
    (h : solve_recaptcha_v2 result = some t) : 50 < t.length := by
  unfold solve_recaptcha_v2 at h
  split at h
  · split at h
    · next hcond =>
      injection h with h2
      subst h2
      simp only [Bool.and_eq_true, decide_eq_true_eq] at hcond
      exact hcond.2
    · cases h
  · cases h

/-- Membership/error shape invariant of the per-CUIT loop: any produced
record with a non-null error has both data fields null. -/
theorem procesarLoteAux_error_null :
    ∀ (l : List (Str × ItemBehavior)) (r : QueryResult),
      r ∈ procesarLoteAux l → r.error ≠ none →
      r.alicuota = none ∧ r.nombre = none := by
  intro l
  induction l with
  | nil => intro r hr _; simp [procesarLoteAux] at hr
  | cons p rest ih =>
    intro r hr he
    obtain ⟨cuit, b⟩ := p
    cases b with
    | ok a n =>
      simp only [procesarLoteAux, List.mem_cons] at hr
      rcases hr with h | h
      · subst h; simp at he
      · exact ih r h he
    | captchaFail =>
      simp only [procesarLoteAux, List.mem_cons] at hr
      rcases hr with h | h
      · subst h; exact ⟨rfl, rfl⟩
      · exact ih r h he
    | exn msg resetOk =>
      cases resetOk with
      | true =>
        simp only [procesarLoteAux, List.mem_cons] at hr
        rcases hr with h | h
        · subst h; exact ⟨rfl, rfl⟩
        · exact ih r h he
      | false =>
        simp only [procesarLoteAux, List.mem_cons, List.not_mem_nil, or_false] at hr
        subst hr; exact ⟨rfl, rfl⟩

/-! ## Claim theorems -/

/-- C1 (code bug): the batch loop does NOT return one record per input
under the connection-lost failure mode.  For the two-element batch
`["1", "2"]` where processing `"1"` raises and the post-error page reset
reports the connection gone, the inner loop `break`s: the output has
exactly one record, not two.  (The padding block in the outer `except` of
`_obtener_alicuotas_secuencial` is unreachable, since nothing in the loop
can raise past the per-item handler.) -/
theorem C1_batch_length_lost :
    (obtener_alicuotas_secuencial ["1".data, "2".data]
      [.exn "Connection closed".data false,
       .ok "2.50%".data "EMPRESA".data]).length = 1
    ∧ (["1".data, "2".data] : List Str).length = 2 := by decide

/-- C2 (code bug): when the connection is lost while processing the first
identifier of `["1", "2"]`, the unprocessed identifier `"2"` receives no
record at all — the output is a single record for `"1"` carrying the
error, instead of two records with the same terminal error. -/
theorem C2_abort_drops_unprocessed :
    obtener_alicuotas_secuencial ["1".data, "2".data]
      [.exn "Page closed".data false, .ok "r".data "n".data]
    = [⟨"1".data, none, none, some "Error: Page closed".data⟩] := by decide

/-- C3 counterexample: for the label text `"Variable: 2.50% / ..."` the
parsed rate is `"2.50%"` — the substring up to the `/` delimiter keeps the
percent sign — not `"2.50"` as the claim states. -/
theorem C3_rate_counterexample :
    parseAlicuota (some "Variable: 2.50% / ...".data) = some "2.50%".data
    ∧ ("2.50%".data : Str) ≠ "2.50".data := by decide

/-- The frame content of the C3 scenario: the name line followed by the
rate line. -/
def contenidoEjemplo : Str := "EMPRESA EJEMPLO SA\nVariable: 2.50% / ...".data

/-- The rate label text of the C3 scenario. -/
def etiquetaEjemplo : Str := "Variable: 2.50% / ...".data

/-- C3 amended: in the scenario (successful solve, label
`"Variable: 2.50% / ..."`, preceding line `"EMPRESA EJEMPLO SA"`) the
single output record is
`{cuit: "30717692221", alicuota: "2.50%", nombre: "EMPRESA EJEMPLO SA",
error: null}` — the rate keeps the percent sign. -/
theorem C3_scenario_amended :
    obtener_alicuotas_secuencial ["30717692221".data]
      [.ok (extraer_alicuota_datos (some contenidoEjemplo) (some etiquetaEjemplo)).1
           (extraer_alicuota_datos (some contenidoEjemplo) (some etiquetaEjemplo)).2]
    = [⟨"30717692221".data, some "2.50%".data,
        some "EMPRESA EJEMPLO SA".data, none⟩] := by decide

/-- C5: every record produced by the batch loop with a non-null error has
both data fields null — `error` and the `(alicuota, nombre)` pair are
mutually exclusive in every produced record. -/
theorem C5_error_implies_null_data (cuits : List Str) (env : List ItemBehavior)
    (r : QueryResult) (hr : r ∈ obtener_alicuotas_secuencial cuits env)
    (he : r.error ≠ none) : r.alicuota = none ∧ r.nombre = none :=
  procesarLoteAux_error_null (cuits.zip env) r hr he

/-- Witness for C5 at a concrete batch with a captcha failure. -/
theorem C5_error_implies_null_data_witness :
    (⟨"20111111112".data, none, none,
      some "No se pudo resolver el captcha".data⟩ : QueryResult).alicuota = none
    ∧ (⟨"20111111112".data, none, none,
        some "No se pudo resolver el captcha".data⟩ : QueryResult).nombre = none :=
  C5_error_implies_null_data ["20111111112".data] [.captchaFail] _
    (by decide) (by decide)

/-- C6: when the token already present in the response textarea is longer
than 50 characters, `_gestionar_captcha` reuses it (stores its preview),
leaves `captcha_resuelto` true, and attempts no new resolution (the
returned flag is `false` and the resolve environment is never consulted). -/
theorem C6_token_reuse (st : CaptchaState) (existing : Str)
    (resolve : ResolveOutcome) (h : 50 < existing.length) :
    gestionar_captcha st existing resolve
      = ({ st with captcha_token := some (tokenPreview existing),
                   captcha_resuelto := true }, false) := by
  have hne : existing.isEmpty = false := isEmpty_false_of_long h
  unfold gestionar_captcha
  simp [hne, h]

/-- A concrete 51-character token. -/
def tok51 : Str := "ABCDEFGHIJKLMNOPQRSTUVWXYZabcdefghijklmnopqrstuvwxy".data

/-- Witness for C6 at a concrete 51-character pre-existing token. -/
theorem C6_token_reuse_witness :
    gestionar_captcha ⟨none, false, false⟩ tok51 .exn
      = (⟨some (tokenPreview tok51), true, false⟩, false) :=
  C6_token_reuse ⟨none, false, false⟩ tok51 .exn (by decide)

/-- C7: `_extraer_site_key` tries the frame-source patterns first and only
then the HTML scan; whenever the frame-source patterns do not match (or no
frame source is available) and the HTML scan yields a key, the extractor
returns that key, not none. -/
theorem C7_sitekey_html_fallback (pm : PageModel) (k : Str)
    (hsrc : ∀ src, pm.frameSrc = some src → siteKeyFromSrc src = none)
    (hhtml : siteKeyFromHtml pm.content = some k) :
    extraer_site_key pm = some k := by
  unfold extraer_site_key
  cases hfs : pm.frameSrc with
  | none => exact hhtml
  | some src =>
    have h1 := hsrc src hfs
    simp [h1, hhtml]

/-- A concrete page whose captcha iframe source matches no site-key
pattern while the page HTML carries a `data-sitekey` attribute. -/
def paginaSoloHtml : PageModel :=
  ⟨some "https://host/challenge".data,
   "<div class=g-recaptcha data-sitekey=\"ABC123\"></div>".data⟩

/-- Witness for C7 at a concrete page where only the HTML scan matches. -/
theorem C7_sitekey_html_fallback_witness :
    extraer_site_key paginaSoloHtml = some "ABC123".data :=
  C7_sitekey_html_fallback paginaSoloHtml "ABC123".data
    (fun src h => by
      simp only [paginaSoloHtml] at h
      injection h with h2
      rw [← h2]
      decide)
    (by decide)

/-- A fully populated open session, with a solved captcha. -/
def sesionAbierta : SessionState :=
  { playwright := true, browser := true, context := true, page := true,
    login_page := true, servicios_page := true, session_ready := true,
    captcha_resuelto := true, captcha_token := some (tokenPreview tok51),
    captcha_resolviendo := false }

/-- C4 counterexample: on the all-releases-succeed path `cerrar_sesion`
leaves `captcha_resuelto` and `captcha_token` set (they are never reset),
and when the very first release (`servicios_page.close()`) fails, the
single `try` block is abandoned: no later release is performed and no
field — not even `session_ready` — is reset. -/
theorem C4_close_counterexample :
    ((cerrar_sesion sesionAbierta (fun _ => false)).1.captcha_resuelto = true
      ∧ (cerrar_sesion sesionAbierta (fun _ => false)).1.captcha_token
          = some (tokenPreview tok51))
    ∧ cerrar_sesion sesionAbierta (fun s => s == CloseStep.servicios_page)
        = (sesionAbierta, []) := by decide

/-- C4 amended: `cerrar_sesion` never raises, but its releases and resets
sit in one guarded block: if the first release fails, nothing else is
released and every field keeps its value; on the success path the page,
browser, context and driver fields and `session_ready` are reset while
the captcha fields (`captcha_resuelto`, `captcha_token`,
`captcha_resolviendo`) keep their values. -/
theorem C4_close_amended (st : SessionState) (fails : CloseStep → Bool)
    (h1 : st.servicios_page = true)
    (h2 : fails CloseStep.servicios_page = true) :
    cerrar_sesion st fails = (st, [])
    ∧ (cerrar_sesion st (fun _ => false)).1
        = { st with
              servicios_page := false
              login_page := false
              page := false
              browser := false
              context := false
              playwright := false
              session_ready := false } := by
  constructor
  · unfold cerrar_sesion
    simp [h1, h2]
  · unfold cerrar_sesion
    simp

/-- Witness for C4 amended at the concrete open session. -/
theorem C4_close_amended_witness :
    cerrar_sesion sesionAbierta (fun s => s == CloseStep.servicios_page)
      = (sesionAbierta, [])
    ∧ (cerrar_sesion sesionAbierta (fun _ => false)).1
        = { sesionAbierta with
              servicios_page := false
              login_page := false
              page := false
              browser := false
              context := false
              playwright := false
              session_ready := false } :=
  C4_close_amended sesionAbierta _ (by decide) (by decide)

/-- C8 counterexample: for the frame text `"A B\nREAL NAME"` the code
skips the first line (length 3, not greater than 3) and returns
`"REAL NAME"`, while the spec's rule — first non-empty line that is not
the rate line and not purely numeric — selects `"A B"`. -/
theorem C8_nombre_counterexample :
    extraer_nombre_desde_contenido (some "A B\nREAL NAME".data)
      = some "REAL NAME".data
    ∧ nombreSegunSpec "A B\nREAL NAME".data = some "A B".data
    ∧ ("A B".data : Str) ≠ "REAL NAME".data := by decide

/-- C8 amended: the extractor returns the first-pass result whenever the
first pass finds a line, and the first pass yields exactly a stripped line
of the content that is non-empty, contains none of `"Variable:"`, `"%"`,
`"$"`, has length greater than 3 and is not purely numeric (a second,
laxer pass only runs when no line qualifies). -/
theorem C8_nombre_amended :
    (∀ c n, c.isEmpty = false → nombreLoop1 (splitChar '\n' c) = some n →
      extraer_nombre_desde_contenido (some c) = some n)
    ∧ (∀ ls n, nombreLoop1 ls = some n →
        n.isEmpty = false ∧ pyContains n "Variable:".data = false
        ∧ pyContains n "%".data = false ∧ pyContains n "$".data = false
        ∧ 3 < n.length ∧ pyIsDigit n = false ∧ n ∈ ls.map pyStrip) := by
  constructor
  · intro c n hc h
    unfold extraer_nombre_desde_contenido
    simp [hc, h]
  · intro ls
    induction ls with
    | nil => intro n h; simp [nombreLoop1] at h
    | cons l rest ih =>
      intro n h
      simp only [nombreLoop1] at h
      split at h
      · next hcond1 =>
        split at h
        · next hcond2 =>
          injection h with h2
          subst h2
          simp only [Bool.and_eq_true, Bool.not_eq_true',
            decide_eq_true_eq] at hcond1 hcond2
          exact ⟨hcond1.1.1.1, hcond1.1.1.2, hcond1.1.2, hcond1.2,
            hcond2.1, hcond2.2, by simp⟩
        · obtain ⟨p1, p2, p3, p4, p5, p6, p7⟩ := ih n h
          exact ⟨p1, p2, p3, p4, p5, p6, by simp [p7]⟩
      · obtain ⟨p1, p2, p3, p4, p5, p6, p7⟩ := ih n h
        exact ⟨p1, p2, p3, p4, p5, p6, by simp [p7]⟩

/-- Witness for C8 amended at a concrete frame text whose first line
qualifies under the first pass. -/
theorem C8_nombre_amended_witness :
    extraer_nombre_desde_contenido (some "EMPRESA X SRL\n123".data)
      = some "EMPRESA X SRL".data :=
  C8_nombre_amended.1 "EMPRESA X SRL\n123".data "EMPRESA X SRL".data
    (by decide) (by decide)

/-- C9: the solver client returns the token for every tolerated response
shape — value under key `"code"`, value under key `"token"` (when
`"code"` is absent), first string value longer than 50 (when both keys
are absent), or a bare string longer than 50 — and for every response it
returns a token only when that token is longer than 50 characters, so a
short or absent candidate always yields failure (`none`). -/
theorem C9_solver_response_shapes :
    (∀ result t, solve_recaptcha_v2 result = some t → 50 < t.length)
    ∧ (∀ es t, dictLookup es "code".data = some (.str t) → 50 < t.length →
        solve_recaptcha_v2 (.dict es) = some t)
    ∧ (∀ es t, dictLookup es "code".data = none →
        dictLookup es "token".data = some (.str t) → 50 < t.length →
        solve_recaptcha_v2 (.dict es) = some t)
    ∧ (∀ es t, dictLookup es "code".data = none →
        dictLookup es "token".data = none → firstLongStrVal es = some t →
        solve_recaptcha_v2 (.dict es) = some t)
    ∧ (∀ s, 50 < s.length → solve_recaptcha_v2 (.str s) = some s) := by
  refine ⟨fun result t h => solve_recaptcha_v2_length h, ?_, ?_, ?_, ?_⟩
  · intro es t hcode hlen
    have hne := dictLookup_isEmpty_false hcode
    have hte := isEmpty_false_of_long hlen
    unfold solve_recaptcha_v2 candidateToken
    simp [responseTruthy, hne, hcode, hte, hlen]
  · intro es t hcode htok hlen
    have hne := dictLookup_isEmpty_false htok
    have hte := isEmpty_false_of_long hlen
    unfold solve_recaptcha_v2 candidateToken
    simp [responseTruthy, hne, hcode, htok, hte, hlen]
  · intro es t hcode htok hfl
    have hlen := firstLongStrVal_length hfl
    have hne : es.isEmpty = false := by
      cases es with
      | nil => simp [firstLongStrVal] at hfl
      | cons p rest => rfl
    have hte := isEmpty_false_of_long hlen
    unfold solve_recaptcha_v2 candidateToken
    simp [responseTruthy, hne, hcode, htok, hfl, hte, hlen]
  · intro s hlen
    have hne := isEmpty_false_of_long hlen
    unfold solve_recaptcha_v2 candidateToken
    simp [responseTruthy, hne, hlen]

/-- Witness for C9 at concrete responses: a dict with a long token under
`"code"` and the same token as a bare string. -/
theorem C9_solver_response_shapes_witness :
    solve_recaptcha_v2 (.dict [("code".data, .str tok51)]) = some tok51
    ∧ solve_recaptcha_v2 (.str tok51) = some tok51 :=
  ⟨C9_solver_response_shapes.2.1 [("code".data, .str tok51)] tok51
      (by decide) (by decide),
   C9_solver_response_shapes.2.2.2.2 tok51 (by decide)⟩

/-- A token that coincides with its own preview: 50 `a`s followed by
`...`, 53 characters in total. -/
def tokenConPuntos : Str :=
  "aaaaaaaaaaaaaaaaaaaaaaaaaaaaaaaaaaaaaaaaaaaaaaaaaa...".data

/-- C10 counterexample: for a token of length 53 ending in `...` (which
passes the `len > 50` guard), the stored preview `token[:50] + "..."`
equals the full token, so the full token string IS stored in the session
state (and hence exposed by the status snapshot) for that input. -/
theorem C10_full_token_stored :
    50 < tokenConPuntos.length
    ∧ tokenPreview tokenConPuntos = tokenConPuntos
    ∧ (gestionar_captcha ⟨none, false, false⟩ tokenConPuntos .exn).1.captcha_token
        = some tokenConPuntos := by decide

/-- The shape every `captcha_token` assignment keeps: either the field is
unchanged, or it holds the preview (`token[:50] + "..."`) of some token
longer than 50 characters. -/
def previewShaped (old new : Option Str) : Prop :=
  new = old ∨ ∃ t : Str, 50 < t.length ∧ new = some (tokenPreview t)

/-- C10 amended: every operation that assigns `captcha_token`
(`_gestionar_captcha`, the startup tail of `_realizar_login`,
`_resolver_captcha_con_servicio`) either leaves the field unchanged or
stores `token[:50] + "..."` of a token longer than 50 characters; the
stored value can still coincide with the full token in the degenerate case
of `C10_full_token_stored`. -/
theorem C10_preview_only :
    (∀ st existing r, previewShaped st.captcha_token
        ((gestionar_captcha st existing r).1.captcha_token))
    ∧ (∀ st tok, previewShaped st.captcha_token
        ((startup_captcha_update st tok).captcha_token))
    ∧ (∀ st hs sk resp tf, previewShaped st.captcha_token
        ((resolver_captcha_con_servicio st hs sk resp tf).1.captcha_token)) := by
  refine ⟨?_, ?_, ?_⟩
  · intro st existing r
    unfold gestionar_captcha
    split
    · next hcond =>
      simp only [Bool.and_eq_true, Bool.not_eq_true', decide_eq_true_eq] at hcond
      exact Or.inr ⟨existing, hcond.2, rfl⟩
    · cases r with
      | ok token =>
        by_cases hcond : (!token.isEmpty && token.length > 50) = true
        · simp only [hcond, if_true]
          simp only [Bool.and_eq_true, Bool.not_eq_true', decide_eq_true_eq] at hcond
          exact Or.inr ⟨token, hcond.2, rfl⟩
        · simp only [Bool.not_eq_true] at hcond
          simp only [hcond, if_false]
          exact Or.inl rfl
      | exn => exact Or.inl rfl
  · intro st tok
    unfold startup_captcha_update
    split
    · next hcond =>
      simp only [Bool.and_eq_true, Bool.not_eq_true', decide_eq_true_eq] at hcond
      exact Or.inr ⟨tok, hcond.2, rfl⟩
    · exact Or.inl rfl
  · intro st hs sk resp tf
    unfold resolver_captcha_con_servicio
    split
    · exact Or.inl rfl
    · cases sk with
      | none => exact Or.inl rfl
      | some k =>
        cases hsv : solve_recaptcha_v2 resp with
        | none => exact Or.inl rfl
        | some token =>
          cases tf with
          | false => exact Or.inl rfl
          | true => exact Or.inr ⟨token, solve_recaptcha_v2_length hsv, rfl⟩

end CaptchaSolver
